import Mathlib

/-
  Verification of the link-checking orchestrator in `src/Checker.py`
  (class `EnhancedLinkedInChecker`).

  The development shallowly embeds the pure decision logic of the checker:
  - the outcome classifier inside `process_single_link` (Checker.py lines
    767-892), as a function of the observed page data,
  - the result-recording and cooldown policy of the `run` loop (lines
    894-1025),
  - the credential store operations `set_credentials` (530-540),
    `_get_current_creds` (555-568) and `_switch_to_next_account` (622-647).

  Side-effecting collaborators (Selenium driver, GUI, clock, filesystem) are
  abstracted: a probe's observable effect is modelled by `ProbeOutcome`
  (the page triple plus the texts of the action buttons the live DOM scan
  reports, or the exception class raised), and waiting out a cooldown window
  is modelled as always completing.  Python strings are modelled by `String`;
  `str.lower` is modelled ASCII-wise, which agrees with Python on all the
  keyword material the checker compares against.
-/

namespace Checker

/-- Apostrophe as a one-character string (used inside keyword literals). -/
def apos : String := String.singleton (Char.ofNat 39)

/-- `needle` occurs at the head of `hay` (character-wise). -/
def leadsWith : List Char → List Char → Bool
  | [], _ => true
  | _ :: _, [] => false
  | a :: as, b :: bs => a == b && leadsWith as bs

/-- `needle` occurs somewhere in `hay`; models Python's `needle in hay`. -/
def containsSubList (needle : List Char) : List Char → Bool
  | [] => needle.isEmpty
  | c :: rest => leadsWith needle (c :: rest) || containsSubList needle rest

/-- Models Python's `needle in hay` on strings. -/
def containsSub (hay needle : String) : Bool :=
  containsSubList needle.data hay.data

/-- Models Python's `str.lower()` (ASCII; all checker keywords are ASCII). -/
def lowerStr (s : String) : String :=
  String.mk (s.data.map Char.toLower)

/-- Models `.replace("’", "'").replace("‘", "'")` from
Checker.py lines 808-809: curly apostrophes are normalized to `'`. -/
def normApos (s : String) : String :=
  String.mk (s.data.map fun c =>
    if c == Char.ofNat 8217 || c == Char.ofNat 8216 then Char.ofNat 39 else c)

/-! ### Keyword material (Checker.py lines 789, 801-807, 816-823, 841, 861, 868) -/

def rate_limit_keywords : List String :=
  ["security verification", "are you a human", "too many requests",
   "temporarily restricted", "checkpoint", "verify your identity",
   "unusual activity"]

def offer_unavailable_keywords : List String :=
  ["offer is no longer available", "this offer has expired",
   "sorry, this offer isn" ++ apos ++ "t available",
   "unable to claim this offer", "this link is no longer active",
   "link has expired", "this gift is no longer available",
   "this trial is no longer available",
   "you may have already redeemed this gift", "offer already redeemed",
   "no longer valid", "not available at this time", "cannot be claimed",
   "already been redeemed"]

def normalized_offer_unavailable_keywords : List String :=
  offer_unavailable_keywords.map normApos

def gift_redeem_url_patterns : List String :=
  ["/redeem", "/gifts/claim", "/sales/gift/claim", "/premium/redeem",
   "linkedin.com/checkout/redeem", "linkedin.com/checkout/gift"]

def gift_redeem_query_params : List String :=
  ["redeemToken", "claimToken", "midToken", "msgPayload", "giftId",
   "trk=li_gift"]

def trial_keywords_on_page : List String :=
  ["try premium for free", "start your free month", "1-month free trial",
   "get premium free", "free trial", "claim your free month",
   "unlock premium free", "try for free", "activate your gift",
   "you" ++ apos ++ "ve received a gift", "claim your gift",
   "redeem your gift", "accept your gift", "start free trial",
   "confirm your free trial", "free premium"]

def qualifying_url_keywords : List String :=
  ["premium", "gift", "redeem", "checkout", "sales/ ενεργοποίηση-δώρου"]

def action_button_keywords : List String :=
  ["activate", "claim", "start free trial", "redeem now", "accept gift",
   "try now", "get started"]

def non_trial_url_patterns : List String :=
  ["/feed/", "/my-items/", "/jobs/", "/company/", "/in/", "/notifications/",
   "/messaging/"]

def page_issue_keywords : List String :=
  ["page not found", "content unavailable", "oops, something went wrong",
   "this page isn" ++ apos ++ "t available", "error processing your request"]

/-! ### The classification predicates (Checker.py lines 789-876) -/

/-- Line 790: a rate-limit keyword occurs in the lowered title or the lowered
page source. -/
def hasRateLimitKeyword (title page_source : String) : Bool :=
  rate_limit_keywords.any (fun kw => containsSub (lowerStr title) kw) ||
  rate_limit_keywords.any (fun kw => containsSub (lowerStr page_source) kw)

/-- Line 796: the (raw, not lowered) final URL looks like an authwall or
login page. -/
def isAuthwallUrl (current_url : String) : Bool :=
  containsSub current_url "authwall" || containsSub current_url "login." ||
  containsSub current_url "/login"

/-- Line 811: an offer-unavailable keyword occurs in the apostrophe-normalized
lowered page source. -/
def hasOfferUnavailableText (page_source : String) : Bool :=
  normalized_offer_unavailable_keywords.any
    (fun kw => containsSub (normApos (lowerStr page_source)) kw)

/-- Line 824: the lowered final URL matches a redeem/claim/gift path pattern. -/
def isGiftRedeemUrl (current_url : String) : Bool :=
  gift_redeem_url_patterns.any (fun patt => containsSub (lowerStr current_url) patt)

/-- Line 825: the raw final URL carries a redeem/claim/gift query parameter
(the check is case-sensitive in the source). -/
def hasGiftRedeemParam (current_url : String) : Bool :=
  gift_redeem_query_params.any (fun qp => containsSub current_url qp)

/-- Line 826: a trial/gift keyword occurs in the lowered page source. -/
def hasTrialKeyword (page_source : String) : Bool :=
  trial_keywords_on_page.any (fun kw => containsSub (lowerStr page_source) kw)

/-- Line 840: the lowered final URL mentions a premium/gift/redeem/checkout
context. -/
def hasQualifyingUrlKeyword (current_url : String) : Bool :=
  qualifying_url_keywords.any
    (fun q => containsSub (lowerStr current_url) q)

/-- Line 836: the lowered title mentions premium, gift or trial. -/
def titleHasPremiumGiftTrial (title : String) : Bool :=
  (["premium", "gift", "trial"] : List String).any
    (fun kw => containsSub (lowerStr title) kw)

/-- Line 862: the lowered final URL matches an ordinary (non-offer) page. -/
def isNonTrialUrl (current_url : String) : Bool :=
  non_trial_url_patterns.any (fun patt => containsSub (lowerStr current_url) patt)

/-- Line 869: the lowered page source mentions a page-not-found style issue. -/
def hasPageIssueKeyword (page_source : String) : Bool :=
  page_issue_keywords.any (fun kw => containsSub (lowerStr page_source) kw)

/-- Lines 844-851: the first scanned button/link whose resolved text (lowered)
contains an action keyword.  `buttons` are the texts the live DOM scan
reports, already resolved through `btn.text or value or aria-label`. -/
def findActionButton : List String → Option String
  | [] => none
  | b :: rest =>
    let btn_text := lowerStr b
    if action_button_keywords.any (fun act_kw => containsSub btn_text act_kw) then
      some btn_text
    else
      findActionButton rest

/-! ### LinkResult (Checker.py lines 477-487; unused fields
`content_analysis` and `error` are omitted — the checker never sets them on
any path modelled here) -/

structure LinkResult where
  link : String
  status : String
  result_details : String := ""
  final_url : Option String := none
  original_url_from_file : Option String := none
  line_num : Option Nat := none
  confidence : Option String := none
deriving DecidableEq, Repr

/-- What one navigation attempt observes: either the page data (final URL,
title, page source, plus the texts of the buttons a later DOM scan would
report), or the exception class the driver raised. -/
inductive ProbeOutcome where
  | page (current_url title page_source : String) (buttons : List String)
  | timeout
  | webdriverError (msg : String)
  | otherError (msg : String)
deriving DecidableEq, Repr

/-- Checker.py lines 828-837: the working-offer confidence computed from the
URL-pattern, query-parameter and page-text signals (before the action-button
escalation of lines 854-855). -/
def signalConfidence (current_url title page_source : String) : String :=
  if isGiftRedeemUrl current_url && hasGiftRedeemParam current_url then "HIGH"
  else if isGiftRedeemUrl current_url || hasGiftRedeemParam current_url then "MEDIUM"
  else if hasTrialKeyword page_source &&
      (containsSub (lowerStr current_url) "premium" ||
       containsSub (lowerStr current_url) "checkout") then
    if titleHasPremiumGiftTrial title then "HIGH" else "MEDIUM"
  else "LOW"

/-- Checker.py lines 783-876: classification of an observed page.  Takes and
returns the two counters the block mutates: `consecutive_error_count` and
`stats["rate_limit_suspected"]`.  Returns
`(result, new_consecutive_error_count, new_rate_limit_suspected)`. -/
def classify (extracted_url original_line : String) (line_num : Nat)
    (current_url title page_source : String) (buttons : List String)
    (count rate : Nat) : LinkResult × Nat × Nat :=
  let base : LinkResult :=
    { link := extracted_url, status := "",
      original_url_from_file := some original_line, line_num := some line_num,
      final_url := some current_url }
  if hasRateLimitKeyword title page_source then
    ({ base with
        status := "RATE_LIMIT_SUSPECTED",
        result_details := "Security/Rate limit page (Title: " ++ lowerStr title ++ ")" },
      count + 1, rate + 1)
  else if isAuthwallUrl current_url then
    ({ base with
        status := "FAILED",
        result_details := "Authwall/Login required or session issue." },
      count + 1, rate)
  else if hasOfferUnavailableText page_source then
    ({ base with
        status := "FAILED",
        result_details := "Offer unavailable, expired, or already redeemed." },
      0, rate)
  else
    let is_gift_redeem_url := isGiftRedeemUrl current_url
    let has_gift_redeem_param := hasGiftRedeemParam current_url
    let found_trial_keyword_on_page := hasTrialKeyword page_source
    let confidence := signalConfidence current_url title page_source
    if (is_gift_redeem_url || has_gift_redeem_param || found_trial_keyword_on_page) &&
        hasQualifyingUrlKeyword current_url then
      let ab := findActionButton buttons
      let details_for_working :=
        match ab with
        | some t =>
            "Potential trial/gift indicators found." ++ " Action button: " ++
              apos ++ t.take 30 ++ apos ++ "."
        | none => "Potential trial/gift indicators found."
      let confidence := if ab.isSome && !(confidence == "HIGH") then "MEDIUM" else confidence
      ({ base with
        status := "WORKING", result_details := details_for_working,
          confidence := some confidence },
        0, rate)
    else if isNonTrialUrl current_url &&
        !(is_gift_redeem_url || has_gift_redeem_param ||
          containsSub (lowerStr current_url) "premium" ||
          containsSub (lowerStr current_url) "gift") then
      ({ base with
        status := "FAILED",
          result_details := "Regular LinkedIn page, not a trial/gift." }, 0, rate)
    else if hasPageIssueKeyword page_source then
      ({ base with
        status := "FAILED",
          result_details := "Page not found, content unavailable, or processing error." },
        0, rate)
    else
      ({ base with
        status := "FAILED",
          result_details := "Inconclusive: No specific trial/gift offer or unavailable message detected." },
        0, rate)

/-- Checker.py lines 767-892 (`process_single_link`): the stop-flag and
missing-driver guards, then the navigation (whose observable effect is the
`ProbeOutcome`) and the classification.  Returns
`(result, new_consecutive_error_count, new_rate_limit_suspected)`. -/
def process_single_link (extracted_url : String) (original_line_num : Nat)
    (original_line_content : String) (should_stop driver_present : Bool)
    (oc : ProbeOutcome) (count rate : Nat) : LinkResult × Nat × Nat :=
  let base : LinkResult :=
    { link := extracted_url, status := "",
      original_url_from_file := some original_line_content,
      line_num := some original_line_num }
  if should_stop then
    ({ base with
        status := "CANCELLED",
        result_details := "Process cancelled by user" }, count, rate)
  else if !driver_present then
    ({ base with
        status := "ERROR",
        result_details := "WebDriver not available" }, count, rate)
  else
    match oc with
    | .page current_url title page_source buttons =>
        classify extracted_url original_line_content original_line_num
          current_url title page_source buttons count rate
    | .timeout =>
        ({ base with
        status := "ERROR",
            result_details := "Timeout loading page." }, count + 1, rate)
    | .webdriverError msg =>
        ({ base with
        status := "ERROR",
            result_details := "WebDriver error: " ++ msg.take 100 },
          count + 1, rate)
    | .otherError msg =>
        ({ base with
        status := "ERROR",
            result_details := "Unexpected error: " ++ msg }, count + 1, rate)

/-! ### The run loop (Checker.py lines 894-1025)

The loop state keeps the counters and buffers of the checker object.  The
account list itself is not consulted by the loop body beyond its length and
the rotation index, so it is summarized by `num_accounts`; rotation through
`_switch_to_next_account` advances the index and clears the per-account
usage counter even when the subsequent driver re-login fails. -/

structure RunState where
  consecutive_error_count : Nat
  rate_limit_cooldown_pending : Option Nat
  current_account_index : Nat
  links_checked_on_current_account : Nat
  num_accounts : Nat
  account_switch_threshold : Nat
  total_processed : Nat
  working_found : Nat
  failed_or_invalid : Nat
  rate_limit_suspected : Nat
  working_links : List LinkResult
  failed_links : List LinkResult
deriving DecidableEq, Repr

/-- Line 188: `RATE_LIMIT_COOLDOWN_MINUTES = 5`. -/
def RATE_LIMIT_COOLDOWN_MINUTES : Nat := 5

/-- Line 527: `self.MAX_CONSECUTIVE_ERRORS_BEFORE_COOLDOWN = 5`. -/
def MAX_CONSECUTIVE_ERRORS_BEFORE_COOLDOWN : Nat := 5

/-- Checker.py lines 896-903: the state reset performed at the start of
`run` (statistics, buffers, counters, cooldown window, rotation index). -/
def initialRunState (num_accounts account_switch_threshold : Nat) : RunState :=
  { consecutive_error_count := 0, rate_limit_cooldown_pending := none,
    current_account_index := 0, links_checked_on_current_account := 0,
    num_accounts := num_accounts,
    account_switch_threshold := account_switch_threshold,
    total_processed := 0, working_found := 0, failed_or_invalid := 0,
    rate_limit_suspected := 0, working_links := [], failed_links := [] }

/-- Checker.py lines 987-998: recording one produced `LinkResult`: bump the
per-account and total counters, then route the result into the matching
statistic and buffer. -/
def recordResult (st : RunState) (r : LinkResult) : RunState :=
  let st := { st with
    links_checked_on_current_account := st.links_checked_on_current_account + 1,
    total_processed := st.total_processed + 1 }
  if r.status == "WORKING" then
    { st with
      working_found := st.working_found + 1,
      working_links := st.working_links ++ [r] }
  else if r.status == "RATE_LIMIT_SUSPECTED" then
    { st with
      rate_limit_suspected := st.rate_limit_suspected + 1,
      failed_links := st.failed_links ++ [r] }
  else if !(r.status == "CANCELLED") then
    { st with
      failed_or_invalid := st.failed_or_invalid + 1,
      failed_links := st.failed_links ++ [r] }
  else st

/-- Outcome of the post-recording policy step. -/
structure PolicyOut where
  cooldown_opened : Bool
  cooldown_minutes : Nat
  new_count : Nat
  rotation_attempted : Bool
  new_index : Nat
  new_links_checked : Nat
deriving DecidableEq, Repr

/-- Checker.py lines 1009-1018: once the consecutive-error counter has
reached `MAX_CONSECUTIVE_ERRORS_BEFORE_COOLDOWN`, open a cooldown window of
`RATE_LIMIT_COOLDOWN_MINUTES`, reset the counter, and attempt a rotation
when more than one account is configured and the switch threshold is
enabled (`> 0`); the rotation advances the index with wraparound and clears
the per-account usage counter (lines 622-635). -/
def cooldown_policy (count num_accounts switch_threshold index links_checked : Nat) :
    PolicyOut :=
  if MAX_CONSECUTIVE_ERRORS_BEFORE_COOLDOWN ≤ count then
    if decide (1 < num_accounts) && decide (0 < switch_threshold) then
      { cooldown_opened := true, cooldown_minutes := RATE_LIMIT_COOLDOWN_MINUTES,
        new_count := 0, rotation_attempted := true,
        new_index := (index + 1) % num_accounts, new_links_checked := 0 }
    else
      { cooldown_opened := true, cooldown_minutes := RATE_LIMIT_COOLDOWN_MINUTES,
        new_count := 0, rotation_attempted := false,
        new_index := index, new_links_checked := links_checked }
  else
    { cooldown_opened := false, cooldown_minutes := 0, new_count := count,
      rotation_attempted := false, new_index := index,
      new_links_checked := links_checked }

/-- Checker.py lines 986-998: process one link (with the stop flag rechecked
as false and the driver ensured live by lines 962-984), store the two
counters the classification mutated, and record the result. -/
def processAndRecord (extracted_url : String) (original_line_num : Nat)
    (original_line_content : String) (oc : ProbeOutcome) (st : RunState) :
    RunState :=
  let out := process_single_link extracted_url original_line_num
    original_line_content false true oc st.consecutive_error_count
    st.rate_limit_suspected
  let st := { st with
    consecutive_error_count := out.2.1, rate_limit_suspected := out.2.2 }
  recordResult st out.1

/-- One iteration body of the `run` loop for the task
`(extracted_url, original_line_num, original_line_content)` whose navigation
observes `oc` (Checker.py lines 942-1018, after the stop-flag check):
wait out an open cooldown window (the wait always completes, clearing the
window and the error counter, lines 942-951), rotate when the per-account
threshold is reached (953-960), process the link with the driver ensured
live (962-986), record the result (987-998), then apply the cooldown
policy (1009-1018). -/
def stepLink (extracted_url : String) (original_line_num : Nat)
    (original_line_content : String) (oc : ProbeOutcome) (st : RunState) :
    RunState :=
  let st :=
    if st.rate_limit_cooldown_pending.isSome then
      { st with rate_limit_cooldown_pending := none, consecutive_error_count := 0 }
    else st
  let st :=
    if decide (0 < st.account_switch_threshold) &&
        decide (st.account_switch_threshold ≤ st.links_checked_on_current_account) &&
        decide (1 < st.num_accounts) then
      { st with
        current_account_index := (st.current_account_index + 1) % st.num_accounts,
        links_checked_on_current_account := 0 }
    else st
  let st := processAndRecord extracted_url original_line_num
    original_line_content oc st
  let p := cooldown_policy st.consecutive_error_count st.num_accounts
    st.account_switch_threshold st.current_account_index
    st.links_checked_on_current_account
  { st with
    consecutive_error_count := p.new_count,
    rate_limit_cooldown_pending :=
      if p.cooldown_opened then some p.cooldown_minutes
      else st.rate_limit_cooldown_pending,
    current_account_index := p.new_index,
    links_checked_on_current_account := p.new_links_checked }

/-- One link task as produced by `read_links` (Checker.py lines 740-765),
paired with what its navigation observes. -/
def LinkTask := (String × Nat × String) × ProbeOutcome

/-- Checker.py lines 937-1018: the `for` loop of `run`.  The externally
settable stop flag is modelled as a predicate on the number of links
processed so far: `stop t = true` means the flag is observed set once `t`
links have been processed. -/
def runLoop (stop : Nat → Bool) : List LinkTask → RunState → RunState
  | [], st => st
  | ((url, ln, line), oc) :: rest, st =>
    if stop st.total_processed then st
    else runLoop stop rest (stepLink url ln line oc st)

/-- The persisted record of a finished run (Checker.py lines 1037-1075):
the JSON report covers `working_links + failed_links`. -/
def savedResults (st : RunState) : List LinkResult :=
  st.working_links ++ st.failed_links

/-! ### The credential store (Checker.py lines 507-568, 622-647) -/

structure Account where
  email : String
  password : String
deriving DecidableEq, Repr

/-- The credential-store slice of the checker object's state
(Checker.py lines 507-511). -/
structure AccountStore where
  accounts : List Account
  current_account_index : Nat
  links_checked_on_current_account : Nat
  primary_email : Option String := none
  primary_password : Option String := none
deriving DecidableEq, Repr

/-- Python truthiness of an optional string (`None` and `""` are falsy). -/
def optTruthy : Option String → Bool
  | none => false
  | some s => !(s == "")

/-- Checker.py lines 530-540 (`set_credentials`): reject empty email or
password, otherwise record the primary pair, drop any account with the same
email, insert the new entry at index 0 and reset the rotation index. -/
def set_credentials (st : AccountStore) (email password : String) :
    AccountStore × Bool :=
  if email == "" || password == "" then (st, false)
  else
    ({ st with
        primary_email := some email, primary_password := some password,
        accounts :=
          ⟨email, password⟩ :: st.accounts.filter (fun acc => !(acc.email == email)),
        current_account_index := 0 },
      true)

/-- Checker.py lines 555-568 (`_get_current_creds`): return the credential at
the rotation index; on an out-of-bounds index (defensive path) reset to the
primary when one is known. -/
def get_current_creds (st : AccountStore) :
    Option (String × String) × AccountStore :=
  if st.accounts.isEmpty then (none, st)
  else
    match st.accounts.get? st.current_account_index with
    | some acc => (some (acc.email, acc.password), st)
    | none =>
      if optTruthy st.primary_email && optTruthy st.primary_password then
        let st0 := { st with current_account_index := 0 }
        match st0.accounts with
        | a :: _ =>
          if some a.email == st.primary_email then (some (a.email, a.password), st0)
          else (none, st0)
        | [] => (none, st0)
      else (none, st)

/-- Checker.py lines 622-647 (`_switch_to_next_account`), restricted to its
effect on the store: a success-returning no-op with at most one account;
otherwise advance the rotation index with wraparound, re-read the
credentials, and clear the per-account usage counter.  The subsequent
driver restart and login are external; when they fail the method returns
`False` without further store changes, so the returned flag here is the
store-level success only. -/
def switch_to_next_account (st : AccountStore) : AccountStore × Bool :=
  if st.accounts.length ≤ 1 then (st, true)
  else
    let st1 := { st with
      current_account_index := (st.current_account_index + 1) % st.accounts.length }
    let credsOut := get_current_creds st1
    match credsOut.1 with
    | none => (credsOut.2, false)
    | some (new_email, _) =>
      if new_email == "" then (credsOut.2, false)
      else
        ({ credsOut.2 with links_checked_on_current_account := 0 }, true)

/-- The store after one `_switch_to_next_account` call. -/
def advanceStore (st : AccountStore) : AccountStore :=
  (switch_to_next_account st).1

/-! ## Claims -/

/-- Claim C1: on a probe for which the rate-limit check does not fire and the
final URL is not an authwall/login URL, the presence of an offer-unavailable
keyword in the (case- and apostrophe-normalized) page source forces the
classification `FAILED` with the unavailable/expired details string, and the
consecutive-error counter is reset — irrespective of the working-offer
signals (redeem URL pattern, redeem query parameter, trial keyword, action
buttons), since the offer-unavailable check precedes them all. -/
theorem C1_offer_unavailable_precedence
    (extracted_url original_line : String) (line_num : Nat)
    (current_url title page_source : String) (buttons : List String)
    (count rate : Nat)
    (hrl : hasRateLimitKeyword title page_source = false)
    (haw : isAuthwallUrl current_url = false)
    (hun : hasOfferUnavailableText page_source = true) :
    (classify extracted_url original_line line_num current_url title
        page_source buttons count rate).1.status = "FAILED" ∧
    (classify extracted_url original_line line_num current_url title
        page_source buttons count rate).1.result_details =
      "Offer unavailable, expired, or already redeemed." ∧
    (classify extracted_url original_line line_num current_url title
        page_source buttons count rate).2.1 = 0 := by
  simp [classify, hrl, haw, hun]

/-- Witness for C1 at a page where the working-offer signals (redeem URL
pattern, redeem query parameter, trial keyword) are all present together
with the offer-unavailable text. -/
theorem C1_offer_unavailable_precedence_witness :
    (hasRateLimitKeyword "t" "free trial this offer has expired" = false ∧
     isAuthwallUrl "https://www.linkedin.com/premium/redeem?redeemToken=1" = false ∧
     hasOfferUnavailableText "free trial this offer has expired" = true ∧
     isGiftRedeemUrl "https://www.linkedin.com/premium/redeem?redeemToken=1" = true ∧
     hasGiftRedeemParam "https://www.linkedin.com/premium/redeem?redeemToken=1" = true ∧
     hasTrialKeyword "free trial this offer has expired" = true) ∧
    (classify "u" "line" 1 "https://www.linkedin.com/premium/redeem?redeemToken=1"
        "t" "free trial this offer has expired" [] 3 0).1.status = "FAILED" ∧
    (classify "u" "line" 1 "https://www.linkedin.com/premium/redeem?redeemToken=1"
        "t" "free trial this offer has expired" [] 3 0).1.result_details =
      "Offer unavailable, expired, or already redeemed." ∧
    (classify "u" "line" 1 "https://www.linkedin.com/premium/redeem?redeemToken=1"
        "t" "free trial this offer has expired" [] 3 0).2.1 = 0 :=
  ⟨⟨by decide, by decide, by decide, by decide, by decide, by decide⟩,
    C1_offer_unavailable_precedence "u" "line" 1
      "https://www.linkedin.com/premium/redeem?redeemToken=1" "t"
      "free trial this offer has expired" [] 3 0
      (by decide) (by decide) (by decide)⟩

/-- Claim C3 counterexample: for the final URL
`https://www.linkedin.com/mkt?midToken=AQz` no earlier rule fires and the
redeem query-parameter signal (`midToken`) holds, yet the classification is
`FAILED` (inconclusive) rather than `WORKING` with `MEDIUM` confidence. -/
theorem C3_param_only_counterexample :
    (hasRateLimitKeyword "" "" = false ∧
     isAuthwallUrl "https://www.linkedin.com/mkt?midToken=AQz" = false ∧
     hasOfferUnavailableText "" = false ∧
     hasGiftRedeemParam "https://www.linkedin.com/mkt?midToken=AQz" = true) ∧
    (classify "u" "line" 1 "https://www.linkedin.com/mkt?midToken=AQz"
        "" "" [] 0 0).1.status = "FAILED" ∧
    ¬ (classify "u" "line" 1 "https://www.linkedin.com/mkt?midToken=AQz"
        "" "" [] 0 0).1.status = "WORKING" := by
  decide

/-- Claim C3 (amended): on a probe on which no earlier rule fired, a final URL
with a redeem/claim/gift URL path pattern or a redeem/claim/gift query
parameter is classified `WORKING` — with confidence `HIGH` when both signals
hold and `MEDIUM` when exactly one holds — provided the URL also contains a
premium/gift/redeem/checkout qualifier keyword (always the case for the path
patterns, but not for query parameters such as `midToken`, `claimToken` or
`msgPayload` on an otherwise unqualified URL, which yield `FAILED`). -/
theorem C3_redeem_url_confidence
    (extracted_url original_line : String) (line_num : Nat)
    (current_url title page_source : String) (buttons : List String)
    (count rate : Nat)
    (hrl : hasRateLimitKeyword title page_source = false)
    (haw : isAuthwallUrl current_url = false)
    (hun : hasOfferUnavailableText page_source = false)
    (hsig : (isGiftRedeemUrl current_url || hasGiftRedeemParam current_url) = true)
    (hqual : hasQualifyingUrlKeyword current_url = true) :
    (classify extracted_url original_line line_num current_url title
        page_source buttons count rate).1.status = "WORKING" ∧
    (classify extracted_url original_line line_num current_url title
        page_source buttons count rate).1.confidence =
      some (if isGiftRedeemUrl current_url && hasGiftRedeemParam current_url
            then "HIGH" else "MEDIUM") := by
  cases hg : isGiftRedeemUrl current_url <;>
    cases hp : hasGiftRedeemParam current_url <;>
      simp [hg, hp] at hsig <;>
        cases hab : findActionButton buttons <;>
          simp [classify, signalConfidence, hrl, haw, hun, hg, hp, hqual, hab]

/-- Witness for C3 at a URL carrying both the path-pattern and the
query-parameter signal. -/
theorem C3_redeem_url_confidence_witness :
    (hasRateLimitKeyword "" "" = false ∧
     isAuthwallUrl "https://www.linkedin.com/premium/redeem?giftId=55" = false ∧
     hasOfferUnavailableText "" = false ∧
     (isGiftRedeemUrl "https://www.linkedin.com/premium/redeem?giftId=55" ||
       hasGiftRedeemParam "https://www.linkedin.com/premium/redeem?giftId=55") = true ∧
     hasQualifyingUrlKeyword "https://www.linkedin.com/premium/redeem?giftId=55" = true) ∧
    (classify "u" "line" 1 "https://www.linkedin.com/premium/redeem?giftId=55"
        "" "" [] 0 0).1.status = "WORKING" ∧
    (classify "u" "line" 1 "https://www.linkedin.com/premium/redeem?giftId=55"
        "" "" [] 0 0).1.confidence =
      some (if isGiftRedeemUrl "https://www.linkedin.com/premium/redeem?giftId=55" &&
              hasGiftRedeemParam "https://www.linkedin.com/premium/redeem?giftId=55"
            then "HIGH" else "MEDIUM") :=
  ⟨⟨by decide, by decide, by decide, by decide, by decide⟩,
    C3_redeem_url_confidence "u" "line" 1
      "https://www.linkedin.com/premium/redeem?giftId=55" "" "" [] 0 0
      (by decide) (by decide) (by decide) (by decide) (by decide)⟩

/-- Claim C4 counterexample: two probes observing the identical triple
(final URL `https://www.linkedin.com/gift-home`, empty title, page source
`free trial`) receive different confidences — `LOW` when the live DOM scan
reports no action button and `MEDIUM` when it reports a `Claim now` button —
so the resulting `LinkResult` is not a function of the triple alone. -/
theorem C4_button_scan_counterexample :
    (classify "u" "line" 1 "https://www.linkedin.com/gift-home" ""
        "free trial" [] 0 0).1.confidence = some "LOW" ∧
    (classify "u" "line" 1 "https://www.linkedin.com/gift-home" ""
        "free trial" ["Claim now"] 0 0).1.confidence = some "MEDIUM" ∧
    (classify "u" "line" 1 "https://www.linkedin.com/gift-home" ""
        "free trial" [] 0 0).1.status =
      (classify "u" "line" 1 "https://www.linkedin.com/gift-home" ""
        "free trial" ["Claim now"] 0 0).1.status := by
  decide

/-- Claim C4 (amended): the classifier is a deterministic function of the
observed page data including the action-button scan; the `status` is
determined by the triple `(final_url, title, page_source)` alone, and for a
fixed triple the button scan can change the `confidence` only by escalating
`LOW` to `MEDIUM`. -/
theorem C4_status_pure_in_triple
    (extracted_url original_line : String) (line_num : Nat)
    (current_url title page_source : String)
    (b1 b2 : List String) (c1 c2 r1 r2 : Nat) :
    (classify extracted_url original_line line_num current_url title
        page_source b1 c1 r1).1.status =
      (classify extracted_url original_line line_num current_url title
        page_source b2 c2 r2).1.status ∧
    ((classify extracted_url original_line line_num current_url title
        page_source b1 c1 r1).1.confidence =
      (classify extracted_url original_line line_num current_url title
        page_source b2 c2 r2).1.confidence ∨
     ((classify extracted_url original_line line_num current_url title
        page_source b1 c1 r1).1.confidence = some "LOW" ∧
      (classify extracted_url original_line line_num current_url title
        page_source b2 c2 r2).1.confidence = some "MEDIUM") ∨
     ((classify extracted_url original_line line_num current_url title
        page_source b2 c2 r2).1.confidence = some "LOW" ∧
      (classify extracted_url original_line line_num current_url title
        page_source b1 c1 r1).1.confidence = some "MEDIUM")) := by
  have hconf : signalConfidence current_url title page_source = "HIGH" ∨
      signalConfidence current_url title page_source = "MEDIUM" ∨
      signalConfidence current_url title page_source = "LOW" := by
    unfold signalConfidence
    split
    · exact Or.inl rfl
    split
    · exact Or.inr (Or.inl rfl)
    split
    · split
      · exact Or.inl rfl
      · exact Or.inr (Or.inl rfl)
    · exact Or.inr (Or.inr rfl)
  simp only [classify]
  split
  · exact ⟨rfl, Or.inl rfl⟩
  split
  · exact ⟨rfl, Or.inl rfl⟩
  split
  · exact ⟨rfl, Or.inl rfl⟩
  split
  · refine ⟨rfl, ?_⟩
    rcases hconf with h | h | h <;> rw [h] <;>
      cases hab1 : findActionButton b1 <;> cases hab2 : findActionButton b2 <;>
        simp
  split
  · exact ⟨rfl, Or.inl rfl⟩
  split
  · exact ⟨rfl, Or.inl rfl⟩
  exact ⟨rfl, Or.inl rfl⟩

/-- Claim C2 counterexample: a probe landing on an authwall/login URL yields
a `FAILED` result, yet the consecutive-failure counter is incremented
(0 becomes 1) instead of being reset to zero; moreover a `CANCELLED` result
leaves the counter unchanged (7 stays 7) instead of resetting it. -/
theorem C2_authwall_failed_counterexample :
    (process_single_link "u" 1 "line" false true
        (.page "https://www.linkedin.com/authwall?x=1" "t" "s" []) 0 0).1.status
      = "FAILED" ∧
    (process_single_link "u" 1 "line" false true
        (.page "https://www.linkedin.com/authwall?x=1" "t" "s" []) 0 0).2.1 = 1 ∧
    (process_single_link "u" 1 "line" true true
        (.page "https://www.linkedin.com/authwall?x=1" "t" "s" []) 7 0).1.status
      = "CANCELLED" ∧
    (process_single_link "u" 1 "line" true true
        (.page "https://www.linkedin.com/authwall?x=1" "t" "s" []) 7 0).2.1 = 7 := by
  decide

/-- Case analysis of the classifier: the produced status together with the
consecutive-error counter it returns. -/
theorem classify_status_count_cases (eu ol : String) (ln : Nat)
    (u t s : String) (b : List String) (count rate : Nat) :
    ((classify eu ol ln u t s b count rate).1.status = "RATE_LIMIT_SUSPECTED" ∧
      (classify eu ol ln u t s b count rate).2.1 = count + 1) ∨
    ((classify eu ol ln u t s b count rate).1.status = "FAILED" ∧
      isAuthwallUrl u = true ∧
      (classify eu ol ln u t s b count rate).2.1 = count + 1) ∨
    ((classify eu ol ln u t s b count rate).1.status = "FAILED" ∧
      isAuthwallUrl u = false ∧
      (classify eu ol ln u t s b count rate).2.1 = 0) ∨
    ((classify eu ol ln u t s b count rate).1.status = "WORKING" ∧
      (classify eu ol ln u t s b count rate).2.1 = 0) := by
  simp only [classify]
  split
  · exact Or.inl ⟨rfl, rfl⟩
  split
  · rename_i h2
    exact Or.inr (Or.inl ⟨rfl, h2, rfl⟩)
  rename_i h2
  have h2f : isAuthwallUrl u = false := by simpa using h2
  split
  · exact Or.inr (Or.inr (Or.inl ⟨rfl, h2f, rfl⟩))
  split
  · exact Or.inr (Or.inr (Or.inr ⟨rfl, rfl⟩))
  split
  · exact Or.inr (Or.inr (Or.inl ⟨rfl, h2f, rfl⟩))
  split
  · exact Or.inr (Or.inr (Or.inl ⟨rfl, h2f, rfl⟩))
  · exact Or.inr (Or.inr (Or.inl ⟨rfl, h2f, rfl⟩))

/-- Claim C2 (amended): during per-link processing the consecutive-failure
counter is incremented on every `ERROR` raised by navigation (timeout,
WebDriver error, unexpected error), on every `RATE_LIMIT` result, and also
on the authwall/login-required `FAILED` result; it is reset to zero on every
`WORKING` result and on every other `FAILED` result (offer-unavailable,
regular-page, page-issue, inconclusive); it is left unchanged (not reset) by
a `CANCELLED` result and by the `ERROR` produced when the WebDriver is
unavailable; and recording a result in the run loop never touches it. -/
theorem C2_counter_update_rule
    (extracted_url original_line : String) (line_num : Nat)
    (oc : ProbeOutcome) (current_url title page_source : String)
    (buttons : List String) (dp : Bool) (count rate : Nat)
    (st : RunState) (r : LinkResult) :
    (process_single_link extracted_url line_num original_line true dp
        oc count rate).2.1 = count ∧
    (process_single_link extracted_url line_num original_line false false
        oc count rate).2.1 = count ∧
    (process_single_link extracted_url line_num original_line false true
        .timeout count rate).2.1 = count + 1 ∧
    (∀ msg, (process_single_link extracted_url line_num original_line false true
        (.webdriverError msg) count rate).2.1 = count + 1) ∧
    (∀ msg, (process_single_link extracted_url line_num original_line false true
        (.otherError msg) count rate).2.1 = count + 1) ∧
    ((process_single_link extracted_url line_num original_line false true
        (.page current_url title page_source buttons) count rate).1.status = "WORKING" →
      (process_single_link extracted_url line_num original_line false true
        (.page current_url title page_source buttons) count rate).2.1 = 0) ∧
    ((process_single_link extracted_url line_num original_line false true
        (.page current_url title page_source buttons) count rate).1.status = "RATE_LIMIT_SUSPECTED" →
      (process_single_link extracted_url line_num original_line false true
        (.page current_url title page_source buttons) count rate).2.1 = count + 1) ∧
    ((process_single_link extracted_url line_num original_line false true
        (.page current_url title page_source buttons) count rate).1.status = "FAILED" →
      isAuthwallUrl current_url = true →
      (process_single_link extracted_url line_num original_line false true
        (.page current_url title page_source buttons) count rate).2.1 = count + 1) ∧
    ((process_single_link extracted_url line_num original_line false true
        (.page current_url title page_source buttons) count rate).1.status = "FAILED" →
      isAuthwallUrl current_url = false →
      (process_single_link extracted_url line_num original_line false true
        (.page current_url title page_source buttons) count rate).2.1 = 0) ∧
    (recordResult st r).consecutive_error_count = st.consecutive_error_count := by
  have hpc : process_single_link extracted_url line_num original_line false true
      (.page current_url title page_source buttons) count rate =
      classify extracted_url original_line line_num current_url title
        page_source buttons count rate := rfl
  have hcases := classify_status_count_cases extracted_url original_line
    line_num current_url title page_source buttons count rate
  refine ⟨rfl, rfl, rfl, fun _ => rfl, fun _ => rfl, ?_, ?_, ?_, ?_, ?_⟩
  · rw [hpc]
    intro h
    rcases hcases with ⟨h1, h2⟩ | ⟨h1, h3, h2⟩ | ⟨h1, h3, h2⟩ | ⟨h1, h2⟩ <;>
      first
        | exact h2
        | (rw [h] at h1; exact absurd h1 (by decide))
  · rw [hpc]
    intro h
    rcases hcases with ⟨h1, h2⟩ | ⟨h1, h3, h2⟩ | ⟨h1, h3, h2⟩ | ⟨h1, h2⟩ <;>
      first
        | exact h2
        | (rw [h] at h1; exact absurd h1 (by decide))
  · rw [hpc]
    intro h ha
    rcases hcases with ⟨h1, h2⟩ | ⟨h1, h3, h2⟩ | ⟨h1, h3, h2⟩ | ⟨h1, h2⟩
    · rw [h] at h1; exact absurd h1 (by decide)
    · exact h2
    · rw [ha] at h3; exact absurd h3 (by decide)
    · rw [h] at h1; exact absurd h1 (by decide)
  · rw [hpc]
    intro h ha
    rcases hcases with ⟨h1, h2⟩ | ⟨h1, h3, h2⟩ | ⟨h1, h3, h2⟩ | ⟨h1, h2⟩
    · rw [h] at h1; exact absurd h1 (by decide)
    · rw [ha] at h3; exact absurd h3 (by decide)
    · exact h2
    · rw [h] at h1; exact absurd h1 (by decide)
  · simp only [recordResult]
    repeat' split
    all_goals rfl

/-- Witness for C2 at the authwall page (counter incremented on this
`FAILED` result) with an arbitrary recording state. -/
theorem C2_counter_update_rule_witness :
    (process_single_link "u" 1 "line" false true
        (.page "https://www.linkedin.com/authwall?x=1" "t" "s" []) 0 0).2.1
      = 0 + 1 :=
  ((C2_counter_update_rule "u" "line" 1 .timeout
      "https://www.linkedin.com/authwall?x=1" "t" "s" [] true 0 0
      (initialRunState 1 50)
      { link := "u", status := "FAILED" }).2.2.2.2.2.2.2.1)
    (by decide) (by decide)

/-- Claim C7 counterexample: a `CANCELLED` result is created (the stop flag
was observed set inside `process_single_link`) and recorded — the
total-processed statistic becomes 1 — yet it is appended to neither the
working-results buffer nor the failed/other-results buffer, so not every
created `LinkResult` lands in exactly one of the two sequences. -/
theorem C7_cancelled_unrouted_counterexample :
    (process_single_link "u" 1 "line" true true (.page "a" "b" "c" []) 0 0).1.status
      = "CANCELLED" ∧
    (recordResult (initialRunState 1 50)
      (process_single_link "u" 1 "line" true true (.page "a" "b" "c" []) 0 0).1).working_links
      = [] ∧
    (recordResult (initialRunState 1 50)
      (process_single_link "u" 1 "line" true true (.page "a" "b" "c" []) 0 0).1).failed_links
      = [] ∧
    (recordResult (initialRunState 1 50)
      (process_single_link "u" 1 "line" true true (.page "a" "b" "c" []) 0 0).1).total_processed
      = 1 := by
  decide

/-- Claim C7 (amended): every `LinkResult` created for a processed link has a
status in `{WORKING, FAILED, RATE_LIMIT_SUSPECTED, ERROR, CANCELLED}` (the
spec's `RATE_LIMIT`), and the recording step appends every result whose
status is not `CANCELLED` to exactly one of the two result sequences — the
working-results sequence iff the status is `WORKING`, the
failed/other-results sequence otherwise — while a `CANCELLED` result is
appended to neither. -/
theorem C7_status_set_and_routing
    (extracted_url original_line : String) (line_num : Nat)
    (should_stop driver_present : Bool) (oc : ProbeOutcome) (count rate : Nat)
    (st : RunState) (r : LinkResult) :
    (process_single_link extracted_url line_num original_line should_stop
        driver_present oc count rate).1.status ∈
      (["WORKING", "FAILED", "RATE_LIMIT_SUSPECTED", "ERROR", "CANCELLED"] :
        List String) ∧
    (r.status = "CANCELLED" →
      (recordResult st r).working_links = st.working_links ∧
      (recordResult st r).failed_links = st.failed_links) ∧
    (r.status = "WORKING" →
      (recordResult st r).working_links = st.working_links ++ [r] ∧
      (recordResult st r).failed_links = st.failed_links) ∧
    (r.status ≠ "WORKING" → r.status ≠ "CANCELLED" →
      (recordResult st r).working_links = st.working_links ∧
      (recordResult st r).failed_links = st.failed_links ++ [r]) := by
  refine ⟨?_, ?_, ?_, ?_⟩
  · cases should_stop
    · cases driver_present
      · simp [process_single_link]
      · cases oc with
        | page u t s b =>
          rcases classify_status_count_cases extracted_url original_line
              line_num u t s b count rate with
            ⟨h1, _⟩ | ⟨h1, _, _⟩ | ⟨h1, _, _⟩ | ⟨h1, _⟩ <;>
          · have hpc : process_single_link extracted_url line_num original_line
                false true (.page u t s b) count rate =
                classify extracted_url original_line line_num u t s b count rate := rfl
            rw [hpc, h1]
            simp
        | timeout => simp [process_single_link]
        | webdriverError msg => simp [process_single_link]
        | otherError msg => simp [process_single_link]
    · simp [process_single_link]
  · intro h
    simp [recordResult, h]
  · intro h
    simp [recordResult, h]
  · intro h1 h2
    rcases eq_or_ne r.status "RATE_LIMIT_SUSPECTED" with h3 | h3 <;>
      simp [recordResult, h1, h2, h3]

/-- Witness for C7: the routing of a `CANCELLED` result (appended to neither
sequence) starting from the freshly reset run state. -/
theorem C7_status_set_and_routing_witness :
    (recordResult (initialRunState 1 50)
      { link := "u", status := "CANCELLED" }).working_links = [] ∧
    (recordResult (initialRunState 1 50)
      { link := "u", status := "CANCELLED" }).failed_links = [] :=
  (C7_status_set_and_routing "u" "line" 1 false true .timeout 0 0
    (initialRunState 1 50) { link := "u", status := "CANCELLED" }).2.1 rfl

/-- Claim C5: the cooldown policy applied after each recorded link opens a
cooldown window exactly when the consecutive-error counter has reached the
threshold (5), never below it; when it opens, the window has the fixed
duration `RATE_LIMIT_COOLDOWN_MINUTES = 5` minutes, the counter is reset to
0, and a rotation to the next account is attempted iff more than one
account is configured and the account-switch threshold is enabled. -/
theorem C5_cooldown_policy_threshold
    (count num_accounts switch_threshold index links_checked : Nat) :
    ((cooldown_policy count num_accounts switch_threshold index
        links_checked).cooldown_opened = true ↔
      MAX_CONSECUTIVE_ERRORS_BEFORE_COOLDOWN ≤ count) ∧
    (count < MAX_CONSECUTIVE_ERRORS_BEFORE_COOLDOWN →
      (cooldown_policy count num_accounts switch_threshold index
        links_checked).cooldown_opened = false) ∧
    (MAX_CONSECUTIVE_ERRORS_BEFORE_COOLDOWN ≤ count →
      (cooldown_policy count num_accounts switch_threshold index
          links_checked).cooldown_minutes = RATE_LIMIT_COOLDOWN_MINUTES ∧
      (cooldown_policy count num_accounts switch_threshold index
          links_checked).new_count = 0 ∧
      ((cooldown_policy count num_accounts switch_threshold index
          links_checked).rotation_attempted = true ↔
        1 < num_accounts ∧ 0 < switch_threshold)) ∧
    MAX_CONSECUTIVE_ERRORS_BEFORE_COOLDOWN = 5 ∧
    RATE_LIMIT_COOLDOWN_MINUTES = 5 := by
  unfold cooldown_policy
  split
  · rename_i h5
    split
    · rename_i hrot
      simp only [Bool.and_eq_true, decide_eq_true_eq] at hrot
      exact ⟨by simp [h5], fun hlt => absurd h5 (by omega),
        fun _ => ⟨rfl, rfl, by simp [hrot]⟩, rfl, rfl⟩
    · rename_i hrot
      simp only [Bool.and_eq_true, decide_eq_true_eq] at hrot
      refine ⟨by simp [h5], fun hlt => absurd h5 (by omega),
        fun _ => ⟨rfl, rfl, ?_⟩, rfl, rfl⟩
      constructor
      · intro hfalse
        exact absurd hfalse (by simp)
      · intro hand
        exact absurd hand hrot
  · rename_i h5
    exact ⟨by simp [h5], fun _ => rfl, fun h => absurd h h5, rfl, rfl⟩

/-- Witness for C5 at counter exactly 5, two accounts, threshold 50. -/
theorem C5_cooldown_policy_threshold_witness :
    (cooldown_policy 5 2 50 0 3).cooldown_minutes = RATE_LIMIT_COOLDOWN_MINUTES ∧
    (cooldown_policy 5 2 50 0 3).new_count = 0 ∧
    ((cooldown_policy 5 2 50 0 3).rotation_attempted = true ↔ 1 < 2 ∧ 0 < 50) :=
  (C5_cooldown_policy_threshold 5 2 50 0 3).2.2.1 (by decide)

/-- With at least two accounts, all of them carrying nonempty emails,
`_switch_to_next_account` advances the rotation index with wraparound,
clears the per-account usage counter, leaves everything else unchanged and
reports success. -/
theorem advanceStore_char (st : AccountStore) (hN : 1 < st.accounts.length)
    (he : st.accounts.all (fun a => !(a.email == "")) = true) :
    advanceStore st = { st with
      current_account_index := (st.current_account_index + 1) % st.accounts.length,
      links_checked_on_current_account := 0 } ∧
    (switch_to_next_account st).2 = true := by
  have hlen : ¬ st.accounts.length ≤ 1 := by omega
  have hidx : (st.current_account_index + 1) % st.accounts.length <
      st.accounts.length := Nat.mod_lt _ (by omega)
  have hne : ¬ st.accounts = [] := by
    intro h
    rw [h] at hN
    simp at hN
  have hget : st.accounts[(st.current_account_index + 1) % st.accounts.length]? =
      some (st.accounts[(st.current_account_index + 1) % st.accounts.length]) :=
    List.getElem?_eq_getElem hidx
  have hmail :
      ((st.accounts[(st.current_account_index + 1) % st.accounts.length]).email
        == "") = false := by
    have hmem :
        st.accounts[(st.current_account_index + 1) % st.accounts.length] ∈
          st.accounts := List.getElem_mem hidx
    simpa using List.all_eq_true.mp he _ hmem
  constructor <;>
    simp [advanceStore, switch_to_next_account, get_current_creds, hlen, hne,
      hget, hmail]

/-- Iterating the rotation preserves the account list and walks the index
around the cycle. -/
theorem advanceStore_iterate (st : AccountStore) (hN : 1 < st.accounts.length)
    (he : st.accounts.all (fun a => !(a.email == "")) = true)
    (hidx : st.current_account_index < st.accounts.length) :
    ∀ k, (advanceStore^[k] st).accounts = st.accounts ∧
      (advanceStore^[k] st).current_account_index =
        (st.current_account_index + k) % st.accounts.length := by
  intro k
  induction k with
  | zero => simpa using (Nat.mod_eq_of_lt hidx).symm
  | succ n ih =>
    obtain ⟨ha, hi⟩ := ih
    rw [Function.iterate_succ_apply']
    have hN' : 1 < (advanceStore^[n] st).accounts.length := by rw [ha]; exact hN
    have he' : (advanceStore^[n] st).accounts.all
        (fun a => !(a.email == "")) = true := by rw [ha]; exact he
    obtain ⟨hadv, _⟩ := advanceStore_char _ hN' he'
    rw [hadv]
    exact ⟨ha, by simp [ha, hi, Nat.mod_add_mod, Nat.add_assoc]⟩

/-- Claim C8: `_switch_to_next_account` is a success-returning no-op on a
store with at most one account; otherwise it advances `current_account_index`
to `(current_account_index + 1) mod N`, resets the per-account usage counter
to 0 and keeps the account list; consequently it is a cyclic permutation of
the rotation index: applying it N times returns the index to its original
value.  (The store is assumed well-formed: a valid index and nonempty
emails, which `set_credentials`/`add_additional_account` guarantee.) -/
theorem C8_advance_cyclic (st : AccountStore)
    (he : st.accounts.all (fun a => !(a.email == "")) = true)
    (hidx : st.current_account_index < st.accounts.length) :
    (st.accounts.length ≤ 1 → switch_to_next_account st = (st, true)) ∧
    (1 < st.accounts.length →
      (advanceStore st).current_account_index =
        (st.current_account_index + 1) % st.accounts.length ∧
      (advanceStore st).links_checked_on_current_account = 0 ∧
      (advanceStore st).accounts = st.accounts ∧
      (switch_to_next_account st).2 = true) ∧
    (advanceStore^[st.accounts.length] st).current_account_index =
      st.current_account_index := by
  refine ⟨?_, ?_, ?_⟩
  · intro h
    simp [switch_to_next_account, h]
  · intro hN
    obtain ⟨hc, hs⟩ := advanceStore_char st hN he
    rw [hc]
    exact ⟨rfl, rfl, rfl, hs⟩
  · rcases Nat.lt_or_ge 1 st.accounts.length with hN | hN
    · obtain ⟨_, hi⟩ := advanceStore_iterate st hN he hidx st.accounts.length
      rw [hi, Nat.add_mod_right]
      exact Nat.mod_eq_of_lt hidx
    · have h1 : st.accounts.length = 1 := by omega
      have hfix : advanceStore st = st := by
        simp [advanceStore, switch_to_next_account, h1]
      rw [h1]
      simp [hfix]

/-- Witness for C8: a two-account store; two rotations return the index to
its original value 0. -/
theorem C8_advance_cyclic_witness :
    (advanceStore^[2]
      { accounts := [⟨"a@x", "p"⟩, ⟨"b@x", "q"⟩], current_account_index := 0,
        links_checked_on_current_account := 3 : AccountStore }).current_account_index
      = 0 :=
  (C8_advance_cyclic
    { accounts := [⟨"a@x", "p"⟩, ⟨"b@x", "q"⟩], current_account_index := 0,
      links_checked_on_current_account := 3 }
    (by decide) (by decide)).2.2

/-- Claim C9: `set_credentials` fails (returning `false`, store unchanged)
iff the email or the password is empty; otherwise it succeeds, resets
`current_account_index` to 0, places the new entry at the head of the
account list, leaves no other entry with the same email, and is idempotent:
a second identical call produces the same store and flag as the first. -/
theorem C9_set_primary_idempotent (st : AccountStore) (email password : String) :
    (email = "" ∨ password = "" →
      set_credentials st email password = (st, false)) ∧
    (email ≠ "" → password ≠ "" →
      (set_credentials st email password).2 = true ∧
      (set_credentials st email password).1.current_account_index = 0 ∧
      (set_credentials st email password).1.accounts.head? =
        some ⟨email, password⟩ ∧
      (∀ a ∈ (set_credentials st email password).1.accounts,
        a.email = email → a = ⟨email, password⟩) ∧
      set_credentials (set_credentials st email password).1 email password =
        set_credentials st email password) := by
  constructor
  · intro h
    rcases h with h | h <;> simp [set_credentials, h]
  · intro he hp
    have hbe : (email == "") = false := by simp [he]
    have hbp : (password == "") = false := by simp [hp]
    refine ⟨by simp [set_credentials, hbe, hbp],
      by simp [set_credentials, hbe, hbp],
      by simp [set_credentials, hbe, hbp], ?_, ?_⟩
    · intro a ha hae
      simp only [set_credentials, hbe, hbp, Bool.or_self, Bool.false_eq_true,
        if_false, List.mem_cons] at ha
      rcases ha with rfl | ha
      · rfl
      · have hfilt := (List.mem_filter.mp ha).2
        simp [hae] at hfilt
    · simp [set_credentials, hbe, hbp, List.filter_filter]

/-- Witness for C9: setting the same primary twice on a one-account store. -/
theorem C9_set_primary_idempotent_witness :
    set_credentials (set_credentials
      { accounts := [⟨"a@x", "p"⟩], current_account_index := 0,
        links_checked_on_current_account := 0 : AccountStore }
      "b@x" "pw").1 "b@x" "pw" =
    set_credentials
      { accounts := [⟨"a@x", "p"⟩], current_account_index := 0,
        links_checked_on_current_account := 0 : AccountStore }
      "b@x" "pw" :=
  ((C9_set_primary_idempotent
    { accounts := [⟨"a@x", "p"⟩], current_account_index := 0,
      links_checked_on_current_account := 0 }
    "b@x" "pw").2 (by decide) (by decide)).2.2.2.2

/-- The stop-flag model for a signal set once `k` links have been
processed. -/
def stopAfter (k : Nat) : Nat → Bool := fun t => decide (k ≤ t)

/-- The stop-flag model for a run that is never stopped. -/
def neverStop : Nat → Bool := fun _ => false

/-- The navigation outcome observes a rate-limit/security page (the
condition of Checker.py line 790). -/
def isRateLimitPage : ProbeOutcome → Bool
  | .page _ title page_source _ => hasRateLimitKeyword title page_source
  | _ => false

/-- Number of rate-limit results in a result list. -/
def countRL (l : List LinkResult) : Nat :=
  (l.filter (fun r => r.status == "RATE_LIMIT_SUSPECTED")).length

theorem countRL_append (l1 l2 : List LinkResult) :
    countRL (l1 ++ l2) = countRL l1 + countRL l2 := by
  simp [countRL, List.filter_append]

theorem countRL_single_rl (r : LinkResult)
    (h : r.status = "RATE_LIMIT_SUSPECTED") : countRL [r] = 1 := by
  simp [countRL, h]

/-- With the stop flag down and a live driver, `process_single_link` never
produces a `CANCELLED` result. -/
theorem process_not_cancelled (eu : String) (ln : Nat) (ol : String)
    (oc : ProbeOutcome) (count rate : Nat) :
    (process_single_link eu ln ol false true oc count rate).1.status ≠
      "CANCELLED" := by
  cases oc with
  | page u t s b =>
    have hpc : process_single_link eu ln ol false true (.page u t s b)
        count rate = classify eu ol ln u t s b count rate := rfl
    rcases classify_status_count_cases eu ol ln u t s b count rate with
      ⟨h1, _⟩ | ⟨h1, _, _⟩ | ⟨h1, _, _⟩ | ⟨h1, _⟩ <;>
    · rw [hpc, h1]
      decide
  | timeout => simp [process_single_link]
  | webdriverError msg => simp [process_single_link]
  | otherError msg => simp [process_single_link]

/-- The rate-limit statistic mutated inside the classifier: incremented by 1
exactly when the outcome is the rate-limit classification. -/
theorem process_rate_spec (eu : String) (ln : Nat) (ol : String)
    (oc : ProbeOutcome) (count rate : Nat) :
    (isRateLimitPage oc = true →
      (process_single_link eu ln ol false true oc count rate).1.status =
        "RATE_LIMIT_SUSPECTED" ∧
      (process_single_link eu ln ol false true oc count rate).2.2 = rate + 1) ∧
    (isRateLimitPage oc = false →
      (process_single_link eu ln ol false true oc count rate).1.status ≠
        "RATE_LIMIT_SUSPECTED" ∧
      (process_single_link eu ln ol false true oc count rate).2.2 = rate) := by
  cases oc with
  | page u t s b =>
    have hpc : process_single_link eu ln ol false true (.page u t s b)
        count rate = classify eu ol ln u t s b count rate := rfl
    constructor
    · intro h
      simp only [isRateLimitPage] at h
      rw [hpc]
      simp [classify, h]
    · intro h
      simp only [isRateLimitPage] at h
      rw [hpc]
      simp only [classify, h, Bool.false_eq_true, if_false]
      repeat' split
      all_goals simp
  | timeout =>
    exact ⟨fun h => by simp [isRateLimitPage] at h,
      fun _ => ⟨by simp [process_single_link], rfl⟩⟩
  | webdriverError msg =>
    exact ⟨fun h => by simp [isRateLimitPage] at h,
      fun _ => ⟨by simp [process_single_link], rfl⟩⟩
  | otherError msg =>
    exact ⟨fun h => by simp [isRateLimitPage] at h,
      fun _ => ⟨by simp [process_single_link], rfl⟩⟩

/-- The recording step increments the rate-limit statistic by 1 exactly for
a rate-limit result (and routes it into the failed buffer). -/
theorem recordResult_rate (st : RunState) (r : LinkResult) :
    (r.status = "RATE_LIMIT_SUSPECTED" →
      (recordResult st r).rate_limit_suspected = st.rate_limit_suspected + 1 ∧
      (recordResult st r).working_links = st.working_links ∧
      (recordResult st r).failed_links = st.failed_links ++ [r]) ∧
    (r.status ≠ "RATE_LIMIT_SUSPECTED" →
      (recordResult st r).rate_limit_suspected = st.rate_limit_suspected) := by
  constructor
  · intro h
    simp [recordResult, h]
  · intro h
    rcases eq_or_ne r.status "WORKING" with h1 | h1
    · simp [recordResult, h1]
    · rcases eq_or_ne r.status "CANCELLED" with h2 | h2 <;>
        simp [recordResult, h, h1, h2]

/-- Recording a non-rate-limit result does not change the number of
rate-limit results in the buffers. -/
theorem recordResult_countRL_not (st : RunState) (r : LinkResult)
    (h : r.status ≠ "RATE_LIMIT_SUSPECTED") :
    countRL ((recordResult st r).working_links ++
        (recordResult st r).failed_links) =
      countRL (st.working_links ++ st.failed_links) := by
  rcases eq_or_ne r.status "WORKING" with h1 | h1
  · simp [recordResult, h1, countRL_append, countRL, h]
  · rcases eq_or_ne r.status "CANCELLED" with h2 | h2 <;>
      simp [recordResult, h1, h2, h, countRL_append, countRL]

/-- Recording any non-`CANCELLED` result grows the combined buffers by
exactly one entry. -/
theorem recordResult_buffers_len (st : RunState) (r : LinkResult)
    (h : r.status ≠ "CANCELLED") :
    ((recordResult st r).working_links ++
      (recordResult st r).failed_links).length =
      (st.working_links ++ st.failed_links).length + 1 := by
  rcases eq_or_ne r.status "WORKING" with h1 | h1
  · simp [recordResult, h1]
    omega
  · rcases eq_or_ne r.status "RATE_LIMIT_SUSPECTED" with h2 | h2 <;>
      simp [recordResult, h1, h2, h] <;> omega

/-- Every loop iteration increments the total-processed statistic by one. -/
theorem stepLink_total (url : String) (ln : Nat) (line : String)
    (oc : ProbeOutcome) (st : RunState) :
    (stepLink url ln line oc st).total_processed = st.total_processed + 1 := by
  simp only [stepLink, processAndRecord, recordResult]
  repeat' split
  all_goals rfl

/-- Every loop iteration adds exactly one result to the combined buffers. -/
theorem stepLink_buffers_len (url : String) (ln : Nat) (line : String)
    (oc : ProbeOutcome) (st : RunState) :
    ((stepLink url ln line oc st).working_links ++
      (stepLink url ln line oc st).failed_links).length =
      (st.working_links ++ st.failed_links).length + 1 := by
  simp only [stepLink, processAndRecord]
  repeat' split
  all_goals
    exact recordResult_buffers_len _ _ (process_not_cancelled _ _ _ _ _ _)

/-- A loop whose stop flag rises once `k` links are processed behaves like an
unstopped loop over the first `k - (already processed)` tasks. -/
theorem runLoop_stopAfter_eq (k : Nat) :
    ∀ (tasks : List LinkTask) (st : RunState), st.total_processed ≤ k →
      runLoop (stopAfter k) tasks st =
        runLoop neverStop (tasks.take (k - st.total_processed)) st := by
  intro tasks
  induction tasks with
  | nil =>
    intro st _
    simp [runLoop]
  | cons t rest ih =>
    intro st h
    obtain ⟨⟨url, ln, line⟩, oc⟩ := t
    rcases eq_or_lt_of_le h with heq | hlt
    · have hstop : stopAfter k st.total_processed = true := by
        simp [stopAfter]
        omega
      have hz : k - st.total_processed = 0 := by omega
      simp [runLoop, hstop, hz]
    · have hstop : stopAfter k st.total_processed = false := by
        simp [stopAfter]
        omega
      have hk : k - st.total_processed = (k - (st.total_processed + 1)) + 1 := by
        omega
      rw [hk]
      simp only [runLoop, hstop, neverStop, Bool.false_eq_true, if_false,
        List.take_succ_cons]
      rw [ih (stepLink url ln line oc st) (by rw [stepLink_total]; omega),
        stepLink_total]

/-- An unstopped loop processes every task. -/
theorem runLoop_neverStop_total (tasks : List LinkTask) (st : RunState) :
    (runLoop neverStop tasks st).total_processed =
      st.total_processed + tasks.length := by
  induction tasks generalizing st with
  | nil => simp [runLoop]
  | cons t rest ih =>
    obtain ⟨⟨url, ln, line⟩, oc⟩ := t
    simp only [runLoop, neverStop, Bool.false_eq_true, if_false, ih,
      stepLink_total, List.length_cons]
    omega

/-- An unstopped loop adds one buffered result per task. -/
theorem runLoop_neverStop_buffers (tasks : List LinkTask) (st : RunState) :
    ((runLoop neverStop tasks st).working_links ++
      (runLoop neverStop tasks st).failed_links).length =
      (st.working_links ++ st.failed_links).length + tasks.length := by
  induction tasks generalizing st with
  | nil => simp [runLoop]
  | cons t rest ih =>
    obtain ⟨⟨url, ln, line⟩, oc⟩ := t
    simp only [runLoop, neverStop, Bool.false_eq_true, if_false, ih,
      stepLink_buffers_len, List.length_cons]
    omega

/-- Claim C6: when the stop signal is observed set after `k` of the `n` link
tasks have been processed, the run loop terminates there: it behaves exactly
like an unstopped run over the first `k` tasks, the total-processed
statistic is `k`, and the persisted output (the combined working and
failed/other buffers that `_save_results` writes) contains exactly the `k`
results produced before the stop. -/
theorem C6_stop_after_k
    (tasks : List LinkTask) (k num_accounts switch_threshold : Nat)
    (hk : k ≤ tasks.length) :
    runLoop (stopAfter k) tasks
        (initialRunState num_accounts switch_threshold) =
      runLoop neverStop (tasks.take k)
        (initialRunState num_accounts switch_threshold) ∧
    (runLoop (stopAfter k) tasks
        (initialRunState num_accounts switch_threshold)).total_processed = k ∧
    (savedResults (runLoop (stopAfter k) tasks
        (initialRunState num_accounts switch_threshold))).length = k := by
  have heq := runLoop_stopAfter_eq k tasks
    (initialRunState num_accounts switch_threshold) (by simp [initialRunState])
  rw [show (initialRunState num_accounts switch_threshold).total_processed = 0
      from rfl, Nat.sub_zero] at heq
  refine ⟨heq, ?_, ?_⟩
  · rw [heq, runLoop_neverStop_total]
    simp [initialRunState, List.length_take]
    omega
  · rw [heq]
    have hb := runLoop_neverStop_buffers (tasks.take k)
      (initialRunState num_accounts switch_threshold)
    simp only [savedResults]
    rw [hb]
    simp [initialRunState, List.length_take]
    omega

/-- Witness for C6: ten probe tasks, stop observed after the second; the
loop records exactly two results. -/
theorem C6_stop_after_k_witness :
    (runLoop (stopAfter 2)
      (List.replicate 10 (("u", 1, "line"), ProbeOutcome.timeout))
      (initialRunState 1 50)).total_processed = 2 ∧
    (savedResults (runLoop (stopAfter 2)
      (List.replicate 10 (("u", 1, "line"), ProbeOutcome.timeout))
      (initialRunState 1 50))).length = 2 :=
  ⟨(C6_stop_after_k
      (List.replicate 10 (("u", 1, "line"), ProbeOutcome.timeout)) 2 1 50
      (by decide)).2.1,
    (C6_stop_after_k
      (List.replicate 10 (("u", 1, "line"), ProbeOutcome.timeout)) 2 1 50
      (by decide)).2.2⟩

/-- On a rate-limit page, processing plus recording bumps the rate-limit
statistic twice in total (once inside the classification, once in the
recording step). -/
theorem processAndRecord_rate (url : String) (ln : Nat) (line : String)
    (oc : ProbeOutcome) (st : RunState) (hrl : isRateLimitPage oc = true) :
    (processAndRecord url ln line oc st).rate_limit_suspected =
      st.rate_limit_suspected + 2 := by
  simp only [processAndRecord]
  obtain ⟨hst, hrate⟩ := (process_rate_spec url ln line oc
    st.consecutive_error_count st.rate_limit_suspected).1 hrl
  obtain ⟨hr1, _, _⟩ := (recordResult_rate { st with
    consecutive_error_count := (process_single_link url ln line false true oc
      st.consecutive_error_count st.rate_limit_suspected).2.1,
    rate_limit_suspected := (process_single_link url ln line false true oc
      st.consecutive_error_count st.rate_limit_suspected).2.2 }
    (process_single_link url ln line false true oc
      st.consecutive_error_count st.rate_limit_suspected).1).1 hst
  rw [hr1]
  simp [hrate]

/-- Processing plus recording preserves the invariant that the rate-limit
statistic equals twice the number of rate-limit results in the buffers. -/
theorem processAndRecord_countRL_inv (url : String) (ln : Nat) (line : String)
    (oc : ProbeOutcome) (st : RunState)
    (hinv : st.rate_limit_suspected =
      2 * countRL (st.working_links ++ st.failed_links)) :
    (processAndRecord url ln line oc st).rate_limit_suspected =
      2 * countRL ((processAndRecord url ln line oc st).working_links ++
        (processAndRecord url ln line oc st).failed_links) := by
  simp only [processAndRecord]
  rcases hrl : isRateLimitPage oc with _ | _
  · obtain ⟨hst, hrate⟩ := (process_rate_spec url ln line oc
      st.consecutive_error_count st.rate_limit_suspected).2 hrl
    have hr2 := (recordResult_rate { st with
      consecutive_error_count := (process_single_link url ln line false true oc
        st.consecutive_error_count st.rate_limit_suspected).2.1,
      rate_limit_suspected := (process_single_link url ln line false true oc
        st.consecutive_error_count st.rate_limit_suspected).2.2 }
      (process_single_link url ln line false true oc
        st.consecutive_error_count st.rate_limit_suspected).1).2 hst
    have hcnt := recordResult_countRL_not { st with
      consecutive_error_count := (process_single_link url ln line false true oc
        st.consecutive_error_count st.rate_limit_suspected).2.1,
      rate_limit_suspected := (process_single_link url ln line false true oc
        st.consecutive_error_count st.rate_limit_suspected).2.2 }
      (process_single_link url ln line false true oc
        st.consecutive_error_count st.rate_limit_suspected).1 hst
    rw [hr2, hcnt]
    simpa [hrate] using hinv
  · obtain ⟨hst, hrate⟩ := (process_rate_spec url ln line oc
      st.consecutive_error_count st.rate_limit_suspected).1 hrl
    obtain ⟨hr1, hw, hf⟩ := (recordResult_rate { st with
      consecutive_error_count := (process_single_link url ln line false true oc
        st.consecutive_error_count st.rate_limit_suspected).2.1,
      rate_limit_suspected := (process_single_link url ln line false true oc
        st.consecutive_error_count st.rate_limit_suspected).2.2 }
      (process_single_link url ln line false true oc
        st.consecutive_error_count st.rate_limit_suspected).1).1 hst
    rw [hr1, hw, hf, countRL_append, countRL_append,
      countRL_single_rl _ hst]
    simp only [hrate]
    rw [countRL_append] at hinv
    simp only [hinv]
    omega

/-- A loop iteration on a rate-limit page bumps the rate-limit statistic by
exactly 2. -/
theorem stepLink_rate_rl (url : String) (ln : Nat) (line : String)
    (oc : ProbeOutcome) (st : RunState) (hrl : isRateLimitPage oc = true) :
    (stepLink url ln line oc st).rate_limit_suspected =
      st.rate_limit_suspected + 2 := by
  simp only [stepLink]
  repeat' split
  all_goals exact processAndRecord_rate url ln line oc _ hrl

/-- Every loop iteration preserves the twice-the-buffer-count invariant. -/
theorem stepLink_countRL_inv (url : String) (ln : Nat) (line : String)
    (oc : ProbeOutcome) (st : RunState)
    (hinv : st.rate_limit_suspected =
      2 * countRL (st.working_links ++ st.failed_links)) :
    (stepLink url ln line oc st).rate_limit_suspected =
      2 * countRL ((stepLink url ln line oc st).working_links ++
        (stepLink url ln line oc st).failed_links) := by
  simp only [stepLink]
  repeat' split
  all_goals exact processAndRecord_countRL_inv url ln line oc _ hinv

/-- The twice-the-buffer-count invariant holds along the whole run loop. -/
theorem runLoop_countRL_inv (stop : Nat → Bool) (tasks : List LinkTask)
    (st : RunState)
    (hinv : st.rate_limit_suspected =
      2 * countRL (st.working_links ++ st.failed_links)) :
    (runLoop stop tasks st).rate_limit_suspected =
      2 * countRL ((runLoop stop tasks st).working_links ++
        (runLoop stop tasks st).failed_links) := by
  induction tasks generalizing st with
  | nil => simpa [runLoop] using hinv
  | cons t rest ih =>
    obtain ⟨⟨url, ln, line⟩, oc⟩ := t
    rcases hstop : stop st.total_processed with _ | _
    · simp only [runLoop, hstop, Bool.false_eq_true, if_false]
      exact ih _ (stepLink_countRL_inv url ln line oc st hinv)
    · simpa [runLoop, hstop] using hinv

/-- Claim C10: for every link whose probe observes a rate-limit/security
page, the `rate_limit_suspected` statistic increases by exactly 2 across the
loop iteration — once inside the per-link classification (line 793) and once
again when the run loop records the result (line 994) — while
`total_processed` increases by 1; consequently, over any run starting from
the reset state, the `rate_limit_suspected` counter equals twice the number
of rate-limit results held in the result buffers. -/
theorem C10_rate_limit_double_count
    (url : String) (ln : Nat) (line : String) (oc : ProbeOutcome)
    (st : RunState) (stop : Nat → Bool) (tasks : List LinkTask)
    (num_accounts switch_threshold : Nat) :
    (isRateLimitPage oc = true →
      (stepLink url ln line oc st).rate_limit_suspected =
        st.rate_limit_suspected + 2 ∧
      (stepLink url ln line oc st).total_processed =
        st.total_processed + 1) ∧
    (runLoop stop tasks (initialRunState num_accounts
        switch_threshold)).rate_limit_suspected =
      2 * countRL (savedResults (runLoop stop tasks
        (initialRunState num_accounts switch_threshold))) := by
  constructor
  · intro hrl
    exact ⟨stepLink_rate_rl url ln line oc st hrl,
      stepLink_total url ln line oc st⟩
  · have h := runLoop_countRL_inv stop tasks
      (initialRunState num_accounts switch_threshold)
      (by simp [initialRunState, countRL])
    simpa [savedResults] using h

/-- Witness for C10: a probe observing a security-verification page doubles
the statistic across one iteration from the reset state. -/
theorem C10_rate_limit_double_count_witness :
    (stepLink "u" 1 "line"
      (.page "https://x.test/a" "security verification" "s" [])
      (initialRunState 1 50)).rate_limit_suspected =
      (initialRunState 1 50).rate_limit_suspected + 2 :=
  ((C10_rate_limit_double_count "u" 1 "line"
      (.page "https://x.test/a" "security verification" "s" [])
      (initialRunState 1 50) neverStop [] 1 50).1 (by decide)).1

end Checker
